import Mathlib

/-!
Shallow embedding of `main.py` of the bharatvision_proxy repository
(an HTTP endpoint that drives a headless browser against a remote
Streamlit app: session bootstrap, selector-based input dispatch, and a
polled output harvest), together with theorems settling the frozen
claims about its specification.

Modelling conventions:

* Python string primitives (`strip`, `startswith`, `rstrip`, slicing,
  `join`, truthiness) are embedded as explicit Lean functions over
  `String` (prefixed `py...`), so that concrete runs evaluate by `decide`
  or `rfl`.
* Browser effects are abstracted into environment records.  A selector
  lookup (`query_selector`) is a boolean observation; a fallible browser
  action (`goto`, `fill`, `click`, `inner_text`, `content`) is modelled
  by `Option String` / `Except String _`, where the `String` is the
  rendered exception message that `main.py` interpolates into its debug
  log (the code logs `repr(e)` or `traceback.format_exc()`; we carry the
  message itself).  A `query_selector` call that itself raises behaves
  in the source exactly like a resolved element whose action raises
  (same `except` branch), so the model folds that case into the action
  failure.
* The diagnostic log (`debug` list) is threaded explicitly, mirroring
  the order of every `debug.append` in the source.
* Fixed sleeps (`asyncio.sleep`) are no-ops; the output poll loop is
  modelled in discrete time where one loop iteration that does not break
  costs exactly one sleep interval (1 second in the source, so the
  `timeout_s` argument and the iteration count share one unit).
-/

/-- Python `str.strip()` on both ends (default whitespace set). -/
def pyStrip (s : String) : String :=
  String.mk (((s.data.dropWhile Char.isWhitespace).reverse.dropWhile Char.isWhitespace).reverse)

/-- Python `s.startswith(pre)`. -/
def pyStartsWith (s pre : String) : Bool :=
  pre.data.isPrefixOf s.data

/-- Python `s.rstrip("/")`: remove every trailing slash. -/
def pyRstripSlash (s : String) : String :=
  String.mk ((s.data.reverse.dropWhile (fun c => c == '/')).reverse)

/-- Python slicing `s[:n]` (first `n` characters). -/
def pySlice (s : String) (n : Nat) : String :=
  String.mk (s.data.take n)

/-- Python `sep.join(xs)`. -/
def pyJoin (sep : String) : List String → String
  | [] => ""
  | x :: xs => xs.foldl (fun acc t => acc ++ sep ++ t) x

/-- Python `str(b)` for a boolean, as interpolated by an f-string. -/
def pyBool : Bool → String
  | true => "True"
  | false => "False"

/-- Python `repr` of an optional string attribute value (`None` or a
quoted string), as interpolated into the iframe debug entry. -/
def pyReprOpt : Option String → String
  | none => "None"
  | some s => "\x27" ++ s ++ "\x27"

/-- Module constant `ROOT_URL` of `main.py`. -/
def ROOT_URL : String := "https://bharatvision.streamlit.app"

/-- Module constant `TEXTAREA_CANDIDATES` of `main.py`. -/
def TEXTAREA_CANDIDATES : List String :=
  ["textarea", "div[data-testid=\x27stTextArea\x27] textarea"]

/-- Module constant `BUTTON_CANDIDATES` of `main.py`. -/
def BUTTON_CANDIDATES : List String :=
  ["button[data-testid=\x27stButton\x27]", "button:has-text(\x27Analyze\x27)", "button"]

/-- Module constant `OUTPUT_CANDIDATES` of `main.py`. -/
def OUTPUT_CANDIDATES : List String :=
  ["div.stMarkdown", "div[data-testid=\x27stMarkdown\x27]", "pre"]

/-- Separator used by `extract_output` to join collected fragments. -/
def SEP : String := "\n\n---\n\n"

/-- Observable behaviour of the working page towards the fill/click
loops of `fill_and_click_app`: whether `query_selector(sel)` resolves an
element, and whether `el.fill(text)` / `btn.click()` on the resolved
element raises (`some msg`) or succeeds (`none`). -/
structure Page where
  query : String → Bool
  fillExn : String → Option String
  clickExn : String → Option String

/-- Result of the textarea loop of `fill_and_click_app` (lines 117-127).
`fills` records each `(selector, text)` pair whose `el.fill(text)` call
succeeded, and `tried` records every selector the loop inspected, in
order; both are observation fields mirroring the loop's control flow. -/
structure FillRes where
  filled : Bool
  log : List String
  fills : List (String × String)
  tried : List String
deriving DecidableEq, Repr

/-- Result of the button loop of `fill_and_click_app` (lines 128-138),
with the same observation fields as `FillRes`. -/
structure ClickRes where
  clicked : Bool
  log : List String
  clicks : List String
  tried : List String
deriving DecidableEq, Repr

/-- The textarea loop of `fill_and_click_app`: for each candidate in
order, query it; on a resolved element try `el.fill(text)`; on success
log and break, on an exception log and continue. -/
def fillGo (pg : Page) (text : String) : List String → FillRes
  | [] => ⟨false, [], [], []⟩
  | sel :: rest =>
    if pg.query sel then
      match pg.fillExn sel with
      | none =>
        ⟨true, ["filled using selector: " ++ sel], [(sel, text)], [sel]⟩
      | some e =>
        let r := fillGo pg text rest
        ⟨r.filled, ("fill error " ++ sel ++ ": " ++ e) :: r.log, r.fills, sel :: r.tried⟩
    else
      let r := fillGo pg text rest
      ⟨r.filled, r.log, r.fills, sel :: r.tried⟩

/-- The button loop of `fill_and_click_app`. -/
def clickGo (pg : Page) : List String → ClickRes
  | [] => ⟨false, [], [], []⟩
  | sel :: rest =>
    if pg.query sel then
      match pg.clickExn sel with
      | none =>
        ⟨true, ["clicked button using selector: " ++ sel], [sel], [sel]⟩
      | some e =>
        let r := clickGo pg rest
        ⟨r.clicked, ("button click error " ++ sel ++ ": " ++ e) :: r.log, r.clicks, sel :: r.tried⟩
    else
      let r := clickGo pg rest
      ⟨r.clicked, r.log, r.clicks, sel :: r.tried⟩

/-- The textarea phase of `fill_and_click_app` over `TEXTAREA_CANDIDATES`. -/
def tryFillApp (pg : Page) (text : String) : FillRes :=
  fillGo pg text TEXTAREA_CANDIDATES

/-- The button phase of `fill_and_click_app` over `BUTTON_CANDIDATES`. -/
def tryClickApp (pg : Page) : ClickRes :=
  clickGo pg BUTTON_CANDIDATES

/-- `fill_and_click_app(page, text, debug)` (lines 114-139): returns the
`(filled, clicked)` pair and the debug entries it appended. -/
def fill_and_click_app (pg : Page) (text : String) : (Bool × Bool) × List String :=
  let f := tryFillApp pg text
  let c := tryClickApp pg
  ((f.filled, c.clicked), f.log ++ c.log)

/-- A selector on which the fill loop succeeds outright: it resolves and
`el.fill` does not raise. -/
def fillHit (pg : Page) (s : String) : Bool :=
  pg.query s && (pg.fillExn s).isNone

/-- A selector on which the click loop succeeds outright. -/
def clickHit (pg : Page) (s : String) : Bool :=
  pg.query s && (pg.clickExn s).isNone

theorem fillGo_spec (pg : Page) (text : String) :
    ∀ cands : List String,
      (match cands.find? (fillHit pg) with
       | some sel =>
         (fillGo pg text cands).fills = [(sel, text)] ∧
         (fillGo pg text cands).tried =
           cands.takeWhile (fun s => !(fillHit pg s)) ++ [sel] ∧
         ("filled using selector: " ++ sel) ∈ (fillGo pg text cands).log
       | none =>
         (fillGo pg text cands).fills = [] ∧
         (fillGo pg text cands).tried = cands) := by
  intro cands
  induction cands with
  | nil => simp [fillGo]
  | cons sel rest ih =>
    by_cases hhit : fillHit pg sel = true
    · have hparts : pg.query sel = true ∧ (pg.fillExn sel).isNone = true := by
        simpa [fillHit] using hhit
      have hq : pg.query sel = true := hparts.1
      have hfe : pg.fillExn sel = none := Option.isNone_iff_eq_none.mp hparts.2
      rw [List.find?_cons_of_pos _ hhit]
      simp [fillGo, hq, hfe, List.takeWhile_cons, hhit]
    · have hb : fillHit pg sel = false := by
        cases h : fillHit pg sel with
        | true => exact absurd h hhit
        | false => rfl
      rw [List.find?_cons_of_neg _ (by simp [hb])]
      have htw : (sel :: rest).takeWhile (fun s => !(fillHit pg s)) =
          sel :: rest.takeWhile (fun s => !(fillHit pg s)) := by
        simp [List.takeWhile_cons, hb]
      by_cases hq : pg.query sel = true
      · have hfe : ∃ e, pg.fillExn sel = some e := by
          cases hfx : pg.fillExn sel with
          | none =>
            exfalso
            apply hhit
            unfold fillHit
            simp [hq, hfx]
          | some e => exact ⟨e, rfl⟩
        obtain ⟨e, hfe⟩ := hfe
        cases hfind : rest.find? (fillHit pg) with
        | some sel2 =>
          rw [hfind] at ih
          simp only [fillGo, hq, hfe, if_pos]
          refine ⟨ih.1, ?_, ?_⟩
          · rw [htw]
            simp [ih.2.1]
          · exact List.mem_cons_of_mem _ ih.2.2
        | none =>
          rw [hfind] at ih
          simp only [fillGo, hq, hfe, if_pos]
          exact ⟨ih.1, by simp [ih.2]⟩
      · have hq' : pg.query sel = false := by
          cases h : pg.query sel with
          | true => exact absurd h hq
          | false => rfl
        cases hfind : rest.find? (fillHit pg) with
        | some sel2 =>
          rw [hfind] at ih
          simp only [fillGo, hq']
          refine ⟨ih.1, ?_, ih.2.2⟩
          rw [htw]
          simp [ih.2.1]
        | none =>
          rw [hfind] at ih
          simp only [fillGo, hq']
          exact ⟨ih.1, by simp [ih.2]⟩

theorem fillGo_filled_eq_any (pg : Page) (text : String) :
    ∀ cands : List String, (fillGo pg text cands).filled = cands.any (fillHit pg) := by
  intro cands
  induction cands with
  | nil => simp [fillGo]
  | cons sel rest ih =>
    by_cases hq : pg.query sel = true
    · cases hfe : pg.fillExn sel with
      | none => simp [fillGo, hq, hfe, List.any_cons, fillHit]
      | some e => simp [fillGo, hq, hfe, List.any_cons, fillHit, ih]
    · have hq' : pg.query sel = false := by
        cases h : pg.query sel with
        | true => exact absurd h hq
        | false => rfl
      simp [fillGo, hq', List.any_cons, fillHit, ih]

theorem fillGo_fills_len (pg : Page) (text : String) :
    ∀ cands : List String, (fillGo pg text cands).fills.length ≤ 1 := by
  intro cands
  cases hfind : cands.find? (fillHit pg) with
  | some sel =>
    have h := fillGo_spec pg text cands
    rw [hfind] at h
    simp [h.1]
  | none =>
    have h := fillGo_spec pg text cands
    rw [hfind] at h
    simp [h.1]

theorem clickGo_clicked_eq_any (pg : Page) :
    ∀ cands : List String, (clickGo pg cands).clicked = cands.any (clickHit pg) := by
  intro cands
  induction cands with
  | nil => simp [clickGo]
  | cons sel rest ih =>
    by_cases hq : pg.query sel = true
    · cases hce : pg.clickExn sel with
      | none => simp [clickGo, hq, hce, List.any_cons, clickHit]
      | some e => simp [clickGo, hq, hce, List.any_cons, clickHit, ih]
    · have hq' : pg.query sel = false := by
        cases h : pg.query sel with
        | true => exact absurd h hq
        | false => rfl
      simp [clickGo, hq', List.any_cons, clickHit, ih]

theorem fillGo_all_miss (pg : Page) (text : String) :
    ∀ cands : List String, (∀ s ∈ cands, pg.query s = false) →
      fillGo pg text cands = ⟨false, [], [], cands⟩ := by
  intro cands
  induction cands with
  | nil => intro _; rfl
  | cons sel rest ih =>
    intro h
    have hq : pg.query sel = false := h sel (List.mem_cons_self _ _)
    have hrest := ih (fun s hs => h s (List.mem_cons_of_mem _ hs))
    simp [fillGo, hq, hrest]

/-- Observable behaviour of the working page towards `extract_output`:
for each output selector, the list of matched elements given by their
`inner_text()` outcome (`.ok` text or `.error` message when the read
raises), and the outcome of `inner_text("body")`.  A
`query_selector_all` call that raises is not modelled separately: it
contributes no elements, exactly like an empty match list, and only its
log entry differs. -/
structure XPage where
  nodes : String → List (Except String String)
  body : Except String String

/-- Inner loop of `extract_output` (lines 146-153) over the matches of
one selector: strip each readable text and append it when it is
non-empty and not yet collected. -/
def collectNodes (sel : String) (acc log : List String) :
    List (Except String String) → List String × List String
  | [] => (acc, log)
  | .error e :: ns =>
    collectNodes sel acc (log ++ ["inner_text error " ++ sel ++ ": " ++ e]) ns
  | .ok raw :: ns =>
    let t := pyStrip raw
    if t ≠ "" ∧ t ∉ acc then
      collectNodes sel (acc ++ [t]) (log ++ ["extracted using " ++ sel]) ns
    else
      collectNodes sel acc log ns

/-- Outer loop of `extract_output` (lines 143-155) over the output
selectors. -/
def collectSels (pg : XPage) (acc log : List String) : List String → List String × List String
  | [] => (acc, log)
  | sel :: rest =>
    let p := collectNodes sel acc log (pg.nodes sel)
    collectSels pg p.1 p.2 rest

/-- The fragment list `texts` of `extract_output` after the body
fallback (lines 156-162), together with the accumulated log. -/
def finalFrags (pg : XPage) : List String × List String :=
  let p := collectSels pg [] [] OUTPUT_CANDIDATES
  if p.1.isEmpty then
    match pg.body with
    | .ok b => (p.1 ++ [pySlice b 120000], p.2 ++ ["body fallback extracted"])
    | .error e => (p.1, p.2 ++ ["body fallback error: " ++ e])
  else p

/-- `extract_output(page, debug)` (lines 141-163): the joined fragment
string and the debug entries appended during the pass. -/
def extract_output (pg : XPage) : String × List String :=
  (pyJoin SEP (finalFrags pg).1, (finalFrags pg).2)

/-- Texts a selector's match list contributes before de-duplication:
the stripped `inner_text` of each readable node, with empty strings
dropped, in DOM order. -/
def goodOfNodes (ns : List (Except String String)) : List String :=
  (ns.filterMap (fun r => match r with | .ok t => some (pyStrip t) | .error _ => none)).filter
    (fun t => t ≠ "")

/-- All candidate texts of one extraction pass, across every selector
in order. -/
def goodTexts (pg : XPage) : List String :=
  (OUTPUT_CANDIDATES.map (fun sel => goodOfNodes (pg.nodes sel))).flatten

/-- Order-preserving first-seen de-duplication relative to an already
seen accumulator. -/
def fsd (seen : List String) : List String → List String
  | [] => []
  | t :: ts => if t ∈ seen then fsd seen ts else t :: fsd (seen ++ [t]) ts

theorem collectNodes_fst (sel : String) :
    ∀ (ns : List (Except String String)) (acc log : List String),
      (collectNodes sel acc log ns).1 = acc ++ fsd acc (goodOfNodes ns) := by
  intro ns
  induction ns with
  | nil => intro acc log; simp [collectNodes, fsd, goodOfNodes]
  | cons n ns ih =>
    intro acc log
    cases n with
    | error e => simpa [collectNodes, goodOfNodes] using ih acc _
    | ok raw =>
      by_cases ht : pyStrip raw = ""
      · have : goodOfNodes (.ok raw :: ns) = goodOfNodes ns := by
          simp [goodOfNodes, ht]
        rw [this]
        simp only [collectNodes, ht]
        simpa using ih acc log
      · have hgood : goodOfNodes (.ok raw :: ns) = pyStrip raw :: goodOfNodes ns := by
          simp [goodOfNodes, ht]
        rw [hgood]
        by_cases hmem : pyStrip raw ∈ acc
        · simp only [collectNodes, ht, hmem, fsd]
          simpa [ht, hmem] using ih acc log
        · simp only [collectNodes, fsd]
          rw [if_neg hmem]
          have hcond : (pyStrip raw ≠ "" ∧ pyStrip raw ∉ acc) := ⟨ht, hmem⟩
          simp only [if_pos hcond]
          rw [ih (acc ++ [pyStrip raw]) _]
          simp

theorem fsd_append (g1 : List String) :
    ∀ (g2 seen : List String),
      fsd seen (g1 ++ g2) = fsd seen g1 ++ fsd (seen ++ fsd seen g1) g2 := by
  induction g1 with
  | nil => intro g2 seen; simp only [List.nil_append, fsd, List.append_nil]
  | cons t g1 ih =>
    intro g2 seen
    by_cases hmem : t ∈ seen
    · simp only [List.cons_append, fsd, if_pos hmem]
      exact ih g2 seen
    · simp only [List.cons_append, fsd, if_neg hmem, List.append_eq]
      rw [ih g2 (seen ++ [t])]
      simp

theorem collectSels_fst (pg : XPage) :
    ∀ (sels : List String) (acc log : List String),
      (collectSels pg acc log sels).1 =
        acc ++ fsd acc ((sels.map (fun sel => goodOfNodes (pg.nodes sel))).flatten) := by
  intro sels
  induction sels with
  | nil => intro acc log; simp [collectSels, fsd]
  | cons sel rest ih =>
    intro acc log
    simp only [collectSels, List.map_cons, List.flatten_cons]
    rw [fsd_append]
    have hn := collectNodes_fst sel (pg.nodes sel) acc log
    rw [ih _ _]
    rw [hn]
    simp

theorem fsd_sound :
    ∀ (l seen : List String), (fsd seen l).Nodup ∧ ∀ x ∈ fsd seen l, x ∉ seen := by
  intro l
  induction l with
  | nil => intro seen; simp [fsd]
  | cons t ts ih =>
    intro seen
    by_cases hmem : t ∈ seen
    · simpa [fsd, hmem] using ih seen
    · have ihs := ih (seen ++ [t])
      constructor
      · simp only [fsd, if_neg hmem, List.nodup_cons]
        constructor
        · intro hcontra
          have := ihs.2 t hcontra
          simp at this
        · exact ihs.1
      · intro x hx
        simp only [fsd, if_neg hmem, List.mem_cons] at hx
        cases hx with
        | inl h => rw [h]; exact hmem
        | inr h =>
          have := ihs.2 x h
          intro hc
          exact this (by simp [hc])

theorem fsd_mem :
    ∀ (l seen : List String) (x : String), x ∈ fsd seen l ↔ x ∈ l ∧ x ∉ seen := by
  intro l
  induction l with
  | nil => intro seen x; simp [fsd]
  | cons t ts ih =>
    intro seen x
    by_cases hmem : t ∈ seen
    · simp only [fsd, if_pos hmem]
      rw [ih seen x]
      constructor
      · rintro ⟨h1, h2⟩; exact ⟨List.mem_cons_of_mem _ h1, h2⟩
      · rintro ⟨h1, h2⟩
        rcases List.mem_cons.mp h1 with h | h
        · exact absurd (h ▸ hmem) h2
        · exact ⟨h, h2⟩
    · simp only [fsd, if_neg hmem, List.mem_cons]
      rw [ih (seen ++ [t]) x]
      constructor
      · rintro (h | ⟨h1, h2⟩)
        · exact ⟨Or.inl h, h ▸ hmem⟩
        · refine ⟨Or.inr h1, fun hc => h2 (by simp [hc])⟩
      · rintro ⟨h1, h2⟩
        rcases h1 with h | h
        · exact Or.inl h
        · by_cases hxt : x = t
          · exact Or.inl hxt
          · exact Or.inr ⟨h, by simp [h2, hxt]⟩

/-- Normalisation of a non-empty iframe `src` attribute into an absolute
URL (lines 57-65 of `ensure_in_iframe_context`). -/
def normalize_src (src : String) : String :=
  let s := pyStrip src
  if pyStartsWith s "//" then "https:" ++ s
  else if pyStartsWith s "/" then pyRstripSlash ROOT_URL ++ s
  else if !(pyStartsWith s "http") then pyRstripSlash ROOT_URL ++ "/" ++ s
  else s

/-- Sufficiency predicate of the output poll loop (line 206):
`output and len(output) > 10`. -/
def sufficientOut (s : String) : Bool :=
  decide (s ≠ "" ∧ s.length > 10)

/-- One run of the output poll loop of `run_proxy` (lines 202-209), in
discrete time.  `ex i` is the extraction pass performed at elapsed time
`i` (its result string and its debug entries); `rem` is the number of
whole sleep intervals still inside the timeout; `last` and `log` are the
`output` variable and debug list carried so far.  The result is the
final `output`, the number of sleep intervals consumed, and the final
log. -/
def pollGo (ex : Nat → String × List String) :
    Nat → String → List String → Nat → String × Nat × List String
  | i, last, log, 0 => (last, i, log)
  | i, _, log, rem + 1 =>
    let p := ex i
    let log2 := log ++ p.2
    if sufficientOut p.1 then (p.1, i, log2 ++ ["sufficient output found"])
    else pollGo ex (i + 1) p.1 log2 rem

/-- The poll loop entered with `output = ""` at elapsed time `0`, with
`t` whole sleep intervals inside the configured timeout. -/
def pollLoop (ex : Nat → String × List String) (t : Nat) (log : List String) :
    String × Nat × List String :=
  pollGo ex 0 "" log t

theorem pollGo_log_mono (ex : Nat → String × List String) :
    ∀ (rem i : Nat) (last : String) (log : List String),
      ∃ l2, (pollGo ex i last log rem).2.2 = log ++ l2 := by
  intro rem
  induction rem with
  | zero => intro i last log; exact ⟨[], by simp [pollGo]⟩
  | succ rem ih =>
    intro i last log
    simp only [pollGo]
    by_cases hs : sufficientOut (ex i).1 = true
    · exact ⟨(ex i).2 ++ ["sufficient output found"], by simp [hs]⟩
    · have hs' : sufficientOut (ex i).1 = false := by
        cases h : sufficientOut (ex i).1 with
        | true => exact absurd h hs
        | false => rfl
      obtain ⟨l2, hl2⟩ := ih (i + 1) (ex i).1 (log ++ (ex i).2)
      exact ⟨(ex i).2 ++ l2, by simp [hs', hl2]⟩

theorem pollGo_elapsed_le (ex : Nat → String × List String) :
    ∀ (rem i : Nat) (last : String) (log : List String),
      (pollGo ex i last log rem).2.1 ≤ i + rem := by
  intro rem
  induction rem with
  | zero => intro i last log; simp [pollGo]
  | succ rem ih =>
    intro i last log
    simp only [pollGo]
    by_cases hs : sufficientOut (ex i).1 = true
    · simp only [hs, if_pos]
      omega
    · have hs' : sufficientOut (ex i).1 = false := by
        cases h : sufficientOut (ex i).1 with
        | true => exact absurd h hs
        | false => rfl
      simp only [hs', Bool.false_eq_true, if_neg, not_false_eq_true]
      have := ih (i + 1) (ex i).1 (log ++ (ex i).2)
      omega

theorem pollGo_first_hit (ex : Nat → String × List String) :
    ∀ (rem i i0 : Nat) (last : String) (log : List String),
      i ≤ i0 → i0 < i + rem → sufficientOut (ex i0).1 = true →
      (∀ j, i ≤ j → j < i0 → sufficientOut (ex j).1 = false) →
      (pollGo ex i last log rem).1 = (ex i0).1 ∧ (pollGo ex i last log rem).2.1 = i0 := by
  intro rem
  induction rem with
  | zero =>
    intro i i0 last log h1 h2 _ _
    omega
  | succ rem ih =>
    intro i i0 last log h1 h2 h3 h4
    by_cases heq : i0 = i
    · subst heq
      simp [pollGo, h3]
    · have hlt : i < i0 := by omega
      have hmiss : sufficientOut (ex i).1 = false := h4 i (Nat.le_refl i) hlt
      simp only [pollGo, hmiss, Bool.false_eq_true, if_neg, not_false_eq_true]
      exact ih (i + 1) i0 (ex i).1 (log ++ (ex i).2) (by omega) (by omega) h3
        (fun j hj1 hj2 => h4 j (by omega) hj2)

theorem pollGo_no_hit (ex : Nat → String × List String) :
    ∀ (rem i : Nat) (last : String) (log : List String),
      (∀ j, i ≤ j → j < i + rem → sufficientOut (ex j).1 = false) →
      (pollGo ex i last log rem).1 = (if rem = 0 then last else (ex (i + rem - 1)).1) := by
  intro rem
  induction rem with
  | zero => intro i last log _; simp [pollGo]
  | succ rem ih =>
    intro i last log h
    have hmiss : sufficientOut (ex i).1 = false := h i (Nat.le_refl i) (by omega)
    simp only [pollGo, hmiss, Bool.false_eq_true, if_neg, not_false_eq_true]
    have := ih (i + 1) (ex i).1 (log ++ (ex i).2) (fun j hj1 hj2 => h j (by omega) (by omega))
    rw [this]
    cases rem with
    | zero => simp
    | succ rem => simp; congr 2; omega

/-- JSON-shaped values appearing in the endpoint's responses.  The
booleans of JSON are included so that claims about boolean response
fields are statable; `main.py` itself never places one in a response. -/
inductive JVal where
  | s (v : String)
  | b (v : Bool)
  | arr (vs : List String)
deriving DecidableEq, Repr

/-- Environment of one request: every observation `run_proxy` makes of
the browser, with fallible actions carrying their exception message.
`bvCreds` is the truthiness of `BV_USER and BV_PASS` (only their
truthiness steers the code; their values go into modelled fill calls). -/
structure Env where
  rootNav : Option String
  iframeEl : Option (Option String)
  iframeNav : Option String
  innerUrl : String
  rootUrl : String
  hasUser : Bool
  hasPass : Bool
  bvCreds : Bool
  userFill : Option String
  passFill : Option String
  loginClick : Option String
  loginUrl : String
  secondNav : Option String
  page : Page
  xpage : Nat → XPage
  snapshot : Except String String

/-- `ensure_in_iframe_context(page, debug)` (lines 41-78): whether the
run moved onto a fresh page opened on the iframe URL, and the log
appended.  `env.iframeEl` is the `query_selector("iframe")` result with
its `src` attribute; `env.iframeNav` the outcome of the `goto` on the
normalised URL, whose exception is caught by the function's own
`except` and leaves the run on the parent page. -/
def ensure_in_iframe_context (env : Env) (log : List String) : Bool × List String :=
  match env.iframeEl with
  | none => (false, log ++ ["no iframe found on root page"])
  | some srcAttr =>
    let log1 := log ++ ["found iframe src raw: " ++ pyReprOpt srcAttr]
    match srcAttr with
    | none => (false, log1 ++ ["iframe src empty -> staying on parent page"])
    | some src =>
      if src = "" then (false, log1 ++ ["iframe src empty -> staying on parent page"])
      else
        let url := normalize_src src
        let log2 := log1 ++ ["navigating into iframe URL: " ++ url]
        match env.iframeNav with
        | some e => (false, log2 ++ ["iframe handling error: " ++ e])
        | none => (true, log2 ++ ["in-iframe page url after goto: " ++ env.innerUrl])

/-- `try_login_if_present(page, debug)` (lines 80-112): whether a login
was attempted, and the log appended.  Each of the three login actions is
individually guarded in the source, so none of them can escape. -/
def try_login_if_present (env : Env) (log : List String) : Bool × List String :=
  if env.hasUser && env.hasPass && env.bvCreds then
    let log1 := log ++ ["login inputs detected inside iframe/page -> attempting login"]
    let log2 := log1 ++ (match env.userFill with
      | none => ["filled username in iframe"]
      | some e => ["username fill error: " ++ e])
    let log3 := log2 ++ (match env.passFill with
      | none => ["filled password in iframe"]
      | some e => ["password fill error: " ++ e])
    let log4 := log3 ++ (match env.loginClick with
      | none => ["clicked login button in iframe"]
      | some e => ["login click error in iframe: " ++ e])
    (true, log4 ++ ["url after iframe login attempt: " ++ env.loginUrl])
  else
    (false, log ++ ["no login inputs detected inside iframe/page (or BV_USER/BV_PASS missing)"])

/-- Debug log accumulated by the two Session Bootstrap helpers, started
from the first `debug.append` of `run_proxy` (line 174). -/
def bootLog (env : Env) : List String :=
  (try_login_if_present env
    (ensure_in_iframe_context env ["navigating to root/login wrapper"]).2).2

/-- The working-page URL after bootstrap: the iframe page when the run
entered one, the root page otherwise. -/
def appUrl (env : Env) : String :=
  if (ensure_in_iframe_context env ["navigating to root/login wrapper"]).1 then env.innerUrl
  else env.rootUrl

/-- Debug log at the end of Input Dispatch (after line 199), just before
the output poll loop starts. -/
def dispatchLog (env : Env) (text : String) : List String :=
  bootLog env ++ ["current page url before app actions: " ++ appUrl env] ++
  (tryFillApp env.page text).log ++ (tryClickApp env.page).log ++
  ["filled=" ++ pyBool (tryFillApp env.page text).filled ++ ", clicked=" ++
    pyBool (tryClickApp env.page).clicked]

/-- Success path of `run_proxy` (lines 195-218), entered once both
unguarded `goto(ROOT_URL)` calls have succeeded: input dispatch, the
output poll loop, the guarded snapshot, and the four-field result dict. -/
def run_proxy_ok_body (env : Env) (text : String) (timeout_s : Nat) : List (String × JVal) :=
  let poll := pollLoop (fun i => extract_output (env.xpage i)) timeout_s (dispatchLog env text)
  let snapRes : String × List String :=
    match env.snapshot with
    | .ok s => (pySlice s 120000, poll.2.2)
    | .error e => ("", poll.2.2 ++ ["snapshot error: " ++ e])
  [("result", JVal.s poll.1), ("debug", JVal.arr snapRes.2),
   ("page_url_after", JVal.s (appUrl env)), ("snapshot_snippet", JVal.s snapRes.1)]

/-- `run_proxy(text, timeout_s)` (lines 165-220).  An exception escaping
the guarded helpers — in this embedding only the two unguarded
`goto(ROOT_URL)` calls, at line 175 and (when no iframe page was opened)
line 192 — is caught by the outer `except` and yields the error envelope
carrying the log accumulated so far.  The browser launch is taken to
succeed; `page.url` observations are the `rootUrl`/`innerUrl` fields of
the environment. -/
def run_proxy (env : Env) (text : String) (timeout_s : Nat) : List (String × JVal) :=
  match env.rootNav with
  | some e =>
    [("error", JVal.s "proxy_exception"), ("trace", JVal.s e),
     ("debug", JVal.arr ["navigating to root/login wrapper"])]
  | none =>
    match (if (ensure_in_iframe_context env ["navigating to root/login wrapper"]).1 then none
           else env.secondNav : Option String) with
    | some e =>
      [("error", JVal.s "proxy_exception"), ("trace", JVal.s e),
       ("debug", JVal.arr (bootLog env))]
    | none => run_proxy_ok_body env text timeout_s

/-- The `/validate` endpoint (lines 224-229): `payload` is the optional
`"text"` field of the request body (`payload.get("text", "")`). -/
def validate (env : Env) (payload : Option String) : List (String × JVal) :=
  let text := payload.getD ""
  if text = "" then [("error", JVal.s "No text provided")]
  else run_proxy env text 45

/-- Keys of a JSON-shaped response. -/
def keysOf (r : List (String × JVal)) : List String :=
  r.map Prod.fst

/-- Diagnostic log carried by a response: the entries of its `debug`
field, or none when the response has no such field. -/
def debugOf (r : List (String × JVal)) : List String :=
  match r.lookup "debug" with
  | some (JVal.arr l) => l
  | _ => []

/-- Key list of every completed (non-error) `run_proxy` response. -/
def okKeys : List String :=
  ["result", "debug", "page_url_after", "snapshot_snippet"]

theorem debugOf_ok (a : String) (d : List String) (c sn : String) :
    debugOf [("result", JVal.s a), ("debug", JVal.arr d),
             ("page_url_after", JVal.s c), ("snapshot_snippet", JVal.s sn)] = d := by
  rfl

theorem debugOf_err (tr : String) (d : List String) :
    debugOf [("error", JVal.s "proxy_exception"), ("trace", JVal.s tr),
             ("debug", JVal.arr d)] = d := by
  rfl

theorem run_proxy_completes (env : Env) (text : String) (t : Nat)
    (h1 : env.rootNav = none)
    (h2 : (ensure_in_iframe_context env ["navigating to root/login wrapper"]).1 = true ∨
      env.secondNav = none) :
    run_proxy env text t = run_proxy_ok_body env text t := by
  unfold run_proxy
  rw [h1]
  rcases h2 with h | h
  · rw [h]
    rfl
  · by_cases hb : (ensure_in_iframe_context env ["navigating to root/login wrapper"]).1 = true
    · rw [hb]
      rfl
    · have hb' : (ensure_in_iframe_context env ["navigating to root/login wrapper"]).1 = false := by
        cases hv : (ensure_in_iframe_context env ["navigating to root/login wrapper"]).1 with
        | true => exact absurd hv hb
        | false => rfl
      rw [hb', h]
      rfl

theorem run_proxy_ok_keys (env : Env) (text : String) (t : Nat) :
    keysOf (run_proxy_ok_body env text t) = okKeys := by
  unfold run_proxy_ok_body keysOf okKeys
  cases env.snapshot <;> simp

theorem run_proxy_ok_debug (env : Env) (text : String) (t : Nat) :
    ∃ tail, debugOf (run_proxy_ok_body env text t) = dispatchLog env text ++ tail := by
  obtain ⟨l2, hl2⟩ :=
    pollGo_log_mono (fun i => extract_output (env.xpage i)) t 0 "" (dispatchLog env text)
  unfold run_proxy_ok_body
  cases hsnap : env.snapshot with
  | ok s =>
    refine ⟨l2, ?_⟩
    rw [debugOf_ok]
    exact hl2
  | error e =>
    refine ⟨l2 ++ ["snapshot error: " ++ e], ?_⟩
    rw [debugOf_ok]
    show (pollLoop (fun i => extract_output (env.xpage i)) t (dispatchLog env text)).2.2 ++
        ["snapshot error: " ++ e] = dispatchLog env text ++ (l2 ++ ["snapshot error: " ++ e])
    rw [show pollLoop (fun i => extract_output (env.xpage i)) t (dispatchLog env text) =
      pollGo (fun i => extract_output (env.xpage i)) 0 "" (dispatchLog env text) t from rfl]
    rw [hl2]
    simp

/-- Fixture page of the end-to-end scenario: a `textarea` and a `button`
exist, and fill and click both succeed. -/
def pgHappy : Page :=
  { query := fun s => (s == "textarea") || (s == "button")
    fillExn := fun _ => none
    clickExn := fun _ => none }

/-- Fixture page exposing no recognised input element. -/
def pgAllMiss : Page :=
  { query := fun _ => false
    fillExn := fun _ => none
    clickExn := fun _ => none }

/-- Fixture page with a button but no recognised input element. -/
def pgBtnOnly : Page :=
  { query := fun s => s == "button"
    fillExn := fun _ => none
    clickExn := fun _ => none }

/-- Fixture page on which the first textarea strategy resolves but its
fill call raises, while the second strategy resolves and fills. -/
def pgFirstFillRaises : Page :=
  { query := fun s =>
      (s == "textarea") || (s == "div[data-testid=\x27stTextArea\x27] textarea")
    fillExn := fun s => if s == "textarea" then some "Element is not editable" else none
    clickExn := fun _ => none }

/-- Fixture DOM exposing one markdown block with sufficient text. -/
def xpHappy : XPage :=
  { nodes := fun sel => if sel == "div.stMarkdown" then [.ok "world is the answer"] else []
    body := .ok "BODY" }

/-- Fixture DOM exposing two recognised output containers with
overlapping text content. -/
def xpOverlap : XPage :=
  { nodes := fun sel =>
      if sel == "div.stMarkdown" then [.ok "hello", .ok "world "]
      else if sel == "div[data-testid=\x27stMarkdown\x27]" then [.ok " hello"]
      else []
    body := .ok "BODYTEXT" }

/-- Fixture DOM on which no output selector ever matches. -/
def xpNoOutput : XPage :=
  { nodes := fun _ => []
    body := .ok "This is the whole visible body text" }

/-- Environment of a fully successful request: no iframe, no login form,
working textarea and button, sufficient output on the first extraction
pass, snapshot available. -/
def envHappy : Env :=
  { rootNav := none
    iframeEl := none
    iframeNav := none
    innerUrl := ""
    rootUrl := ROOT_URL
    hasUser := false
    hasPass := false
    bvCreds := false
    userFill := none
    passFill := none
    loginClick := none
    loginUrl := ""
    secondNav := none
    page := pgHappy
    xpage := fun _ => xpHappy
    snapshot := .ok "<html>snapshot</html>" }

/-- Environment whose initial `goto(ROOT_URL)` raises. -/
def envNavFail : Env :=
  { envHappy with rootNav := some "net::ERR_CONNECTION_REFUSED" }

/-- Environment in which the iframe `goto` and all three login actions
raise, while both root navigations succeed. -/
def envBootErr : Env :=
  { envHappy with
    iframeEl := some (some "app")
    iframeNav := some "iframe goto failed"
    hasUser := true
    hasPass := true
    bvCreds := true
    userFill := some "user fill failed"
    passFill := some "pass fill failed"
    loginClick := some "login click failed" }

/-- C1 counterexample: a request that completes without a whole-session
failure (the end-to-end scenario: textarea filled, button clicked,
output extracted) returns a result whose keys are exactly `result`,
`debug`, `page_url_after` and `snapshot_snippet` — it contains no
`filled` or `clicked` field, refuting the claim that the JSON result
carries boolean flags for fill and click success. -/
theorem claim_C1_counterexample :
    keysOf (run_proxy envHappy "hello" 3) = okKeys ∧
    "filled" ∉ keysOf (run_proxy envHappy "hello" 3) ∧
    "clicked" ∉ keysOf (run_proxy envHappy "hello" 3) ∧
    "error" ∉ keysOf (run_proxy envHappy "hello" 3) := by
  have hk : keysOf (run_proxy envHappy "hello" 3) = okKeys := by rfl
  refine ⟨hk, ?_, ?_, ?_⟩ <;> rw [hk] <;> decide

/-- C1 (amended): every request that completes without a whole-session
failure returns a JSON result whose fields are exactly the harvested
text, the diagnostic log, the final page URL and the truncated markup
snapshot; whether fill and click succeeded is not exposed as response
fields but is recorded inside the diagnostic log as the entry
`filled=..., clicked=...`. -/
theorem claim_C1_amended (env : Env) (text : String) (t : Nat)
    (h1 : env.rootNav = none)
    (h2 : (ensure_in_iframe_context env ["navigating to root/login wrapper"]).1 = true ∨
      env.secondNav = none) :
    keysOf (run_proxy env text t) = okKeys ∧
    ("filled=" ++ pyBool (tryFillApp env.page text).filled ++ ", clicked=" ++
      pyBool (tryClickApp env.page).clicked) ∈ debugOf (run_proxy env text t) := by
  rw [run_proxy_completes env text t h1 h2]
  refine ⟨run_proxy_ok_keys env text t, ?_⟩
  obtain ⟨tail, ht⟩ := run_proxy_ok_debug env text t
  rw [ht]
  unfold dispatchLog
  simp

/-- C1 witness: the amended claim instantiated on the end-to-end
scenario, where both flags are true and the log entry reads
`filled=True, clicked=True`. -/
theorem claim_C1_witness :
    keysOf (run_proxy envHappy "hello" 3) = okKeys ∧
    "filled=True, clicked=True" ∈ debugOf (run_proxy envHappy "hello" 3) := by
  have h := claim_C1_amended envHappy "hello" 3 rfl (Or.inr rfl)
  refine ⟨h.1, ?_⟩
  have he : ("filled=" ++ pyBool (tryFillApp envHappy.page "hello").filled ++ ", clicked=" ++
      pyBool (tryClickApp envHappy.page).clicked) = "filled=True, clicked=True" := by decide
  rw [he] at h
  exact h.2

/-- C2 counterexample: when navigation to the root URL (the first
Session Bootstrap step) raises, the request returns the error envelope
rather than proceeding to Input Dispatch, refuting the claim that no
Session Bootstrap step ever causes the overall request to return an
error result. -/
theorem claim_C2_counterexample :
    run_proxy envNavFail "hello" 3 =
      [("error", JVal.s "proxy_exception"),
       ("trace", JVal.s "net::ERR_CONNECTION_REFUSED"),
       ("debug", JVal.arr ["navigating to root/login wrapper"])] := by
  rfl

/-- C2 (amended): exceptions thrown inside iframe resolution and inside
the login attempt are caught, logged to the attempt log, and are
non-fatal — the request still completes and reaches Input Dispatch (its
`filled=..., clicked=...` entry is logged).  An exception during either
unguarded navigation to the root URL, by contrast, aborts the request
with an error result. -/
theorem claim_C2_amended (env : Env) (text : String) (t : Nat)
    (src e eu ep ec : String)
    (h1 : env.rootNav = none)
    (hif : env.iframeEl = some (some src)) (hsrc : src ≠ "")
    (hnav : env.iframeNav = some e)
    (hu : env.hasUser = true) (hp : env.hasPass = true) (hcred : env.bvCreds = true)
    (huf : env.userFill = some eu) (hpf : env.passFill = some ep)
    (hlc : env.loginClick = some ec)
    (h2nd : env.secondNav = none) :
    keysOf (run_proxy env text t) = okKeys ∧
    ("iframe handling error: " ++ e) ∈ debugOf (run_proxy env text t) ∧
    ("username fill error: " ++ eu) ∈ debugOf (run_proxy env text t) ∧
    ("password fill error: " ++ ep) ∈ debugOf (run_proxy env text t) ∧
    ("login click error in iframe: " ++ ec) ∈ debugOf (run_proxy env text t) ∧
    ("filled=" ++ pyBool (tryFillApp env.page text).filled ++ ", clicked=" ++
      pyBool (tryClickApp env.page).clicked) ∈ debugOf (run_proxy env text t) := by
  rw [run_proxy_completes env text t h1 (Or.inr h2nd)]
  obtain ⟨tail, ht⟩ := run_proxy_ok_debug env text t
  have hens : ensure_in_iframe_context env ["navigating to root/login wrapper"] =
      (false, ["navigating to root/login wrapper"] ++
        ["found iframe src raw: " ++ pyReprOpt (some src)] ++
        ["navigating into iframe URL: " ++ normalize_src src] ++
        ["iframe handling error: " ++ e]) := by
    unfold ensure_in_iframe_context
    rw [hif]
    simp [hsrc, hnav]
  have hboot : bootLog env =
      (["navigating to root/login wrapper"] ++
        ["found iframe src raw: " ++ pyReprOpt (some src)] ++
        ["navigating into iframe URL: " ++ normalize_src src] ++
        ["iframe handling error: " ++ e]) ++
      ["login inputs detected inside iframe/page -> attempting login"] ++
      ["username fill error: " ++ eu] ++
      ["password fill error: " ++ ep] ++
      ["login click error in iframe: " ++ ec] ++
      ["url after iframe login attempt: " ++ env.loginUrl] := by
    unfold bootLog
    rw [hens]
    unfold try_login_if_present
    rw [hu, hp, hcred, huf, hpf, hlc]
    simp
  refine ⟨run_proxy_ok_keys env text t, ?_, ?_, ?_, ?_, ?_⟩ <;>
    rw [ht] <;> unfold dispatchLog <;> rw [hboot] <;> simp

/-- C2 witness: the amended claim instantiated on an environment whose
iframe navigation and all three login actions raise; the request still
completes and all four exceptions appear in the log. -/
theorem claim_C2_witness :
    keysOf (run_proxy envBootErr "hi" 2) = okKeys ∧
    "iframe handling error: iframe goto failed" ∈ debugOf (run_proxy envBootErr "hi" 2) ∧
    "login click error in iframe: login click failed" ∈ debugOf (run_proxy envBootErr "hi" 2) := by
  have h := claim_C2_amended envBootErr "hi" 2 "app" "iframe goto failed"
    "user fill failed" "pass fill failed" "login click failed"
    rfl rfl (by decide) rfl rfl rfl rfl rfl rfl rfl rfl
  exact ⟨h.1, h.2.1, h.2.2.2.2.1⟩

/-- C3 counterexample: on a page where no input-selection strategy
resolves, `fill_and_click_app` fills nothing at all — no element (in
particular no synthesized fallback text area) ever receives the text,
no fill entry is logged, and `filled` is `false` — refuting the claim
that a fallback element is always synthesized and filled when all
strategies miss. -/
theorem claim_C3_counterexample :
    (tryFillApp pgAllMiss "probe").fills = [] ∧
    (tryFillApp pgAllMiss "probe").filled = false ∧
    (tryFillApp pgAllMiss "probe").log = [] := by
  decide

/-- C3 (amended): on every page where no input-selection strategy
resolves to an existing element, Input Dispatch synthesizes nothing:
the loop inspects every strategy, fills no element, logs no fill entry,
and reports `filled = false`. -/
theorem claim_C3_amended (pg : Page) (text : String)
    (h : ∀ s ∈ TEXTAREA_CANDIDATES, pg.query s = false) :
    tryFillApp pg text = ⟨false, [], [], TEXTAREA_CANDIDATES⟩ :=
  fillGo_all_miss pg text TEXTAREA_CANDIDATES h

/-- C3 witness: the amended claim instantiated on the page exposing no
recognised input element. -/
theorem claim_C3_witness :
    tryFillApp pgAllMiss "fallback?" = ⟨false, [], [], TEXTAREA_CANDIDATES⟩ :=
  claim_C3_amended pgAllMiss "fallback?" (by decide)

/-- C4: for every run of the output poll loop (with `ex i` the
extraction pass at elapsed second `i` and `t` the configured timeout in
sleep intervals): (a) polling stops immediately at the first pass whose
result satisfies the sufficiency predicate (non-empty and longer than
10 characters), returning that result; (b) the number of sleep
intervals consumed never exceeds the timeout, so the loop overshoots
the timeout by at most one interval of work; (c) when no pass within
the timeout is sufficient, the returned result is whatever the last
pass extracted — the initial empty string when the loop never ran. -/
theorem claim_C4 (ex : Nat → String × List String) (t : Nat) (log : List String) :
    (∀ i0, i0 < t → sufficientOut (ex i0).1 = true →
      (∀ j, j < i0 → sufficientOut (ex j).1 = false) →
      (pollLoop ex t log).1 = (ex i0).1 ∧ (pollLoop ex t log).2.1 = i0) ∧
    (pollLoop ex t log).2.1 ≤ t ∧
    ((∀ i, i < t → sufficientOut (ex i).1 = false) →
      (pollLoop ex t log).1 = (if t = 0 then "" else (ex (t - 1)).1)) := by
  refine ⟨?_, ?_, ?_⟩
  · intro i0 hi0 hsuff hbefore
    exact pollGo_first_hit ex t 0 i0 "" log (Nat.zero_le i0) (by omega) hsuff
      (fun j _ hj => hbefore j hj)
  · have := pollGo_elapsed_le ex t 0 "" log
    simpa using this
  · intro hnone
    have := pollGo_no_hit ex t 0 "" log (fun j _ hj => hnone j (by omega))
    simpa using this

/-- Extraction schedule used to witness C4: the first pass already
yields sufficient output. -/
def exImmediate : Nat → String × List String :=
  fun i => (if i == 0 then "sufficient output" else "", [])

/-- C4 witness: with sufficient output on the very first pass and a
3-interval timeout, the loop stops at elapsed time 0 with that output,
within the timeout bound. -/
theorem claim_C4_witness :
    (pollLoop exImmediate 3 []).1 = "sufficient output" ∧
    (pollLoop exImmediate 3 []).2.1 = 0 ∧
    (pollLoop exImmediate 3 []).2.1 ≤ 3 := by
  have h := claim_C4 exImmediate 3 []
  have ha := h.1 0 (by decide) (by decide) (fun j hj => absurd hj (Nat.not_lt_zero j))
  exact ⟨ha.1, ha.2, h.2.1⟩

/-- C5: one extraction pass visits every matching element of every
output selector in order; each readable element's text is stripped and
appended only when non-empty and not already collected.  The collected
fragment list is exactly the order-preserving first-seen
de-duplication of all candidate texts, contains no duplicates, holds
precisely the distinct candidate texts, and the joined result is the
fragment list joined with the separator. -/
theorem claim_C5 (pg : XPage) :
    (collectSels pg [] [] OUTPUT_CANDIDATES).1 = fsd [] (goodTexts pg) ∧
    ((collectSels pg [] [] OUTPUT_CANDIDATES).1).Nodup ∧
    (∀ x, x ∈ (collectSels pg [] [] OUTPUT_CANDIDATES).1 ↔ x ∈ goodTexts pg) ∧
    ((collectSels pg [] [] OUTPUT_CANDIDATES).1 ≠ [] →
      (extract_output pg).1 = pyJoin SEP (collectSels pg [] [] OUTPUT_CANDIDATES).1) := by
  have hfst := collectSels_fst pg OUTPUT_CANDIDATES [] []
  have hfst' : (collectSels pg [] [] OUTPUT_CANDIDATES).1 = fsd [] (goodTexts pg) := by
    rw [hfst]
    unfold goodTexts
    simp
  refine ⟨hfst', ?_, ?_, ?_⟩
  · rw [hfst']
    exact (fsd_sound (goodTexts pg) []).1
  · intro x
    rw [hfst', fsd_mem]
    simp
  · intro hne
    unfold extract_output finalFrags
    have : (collectSels pg [] [] OUTPUT_CANDIDATES).1.isEmpty = false := by
      cases hl : (collectSels pg [] [] OUTPUT_CANDIDATES).1 with
      | nil => exact absurd hl hne
      | cons a l => rfl
    simp only [this]
    rfl

/-- C5 witness: on the page with two overlapping recognised output
containers, the harvested fragments are `hello` and `world`, each
exactly once, joined in first-seen order. -/
theorem claim_C5_witness :
    (collectSels xpOverlap [] [] OUTPUT_CANDIDATES).1 = ["hello", "world"] ∧
    (extract_output xpOverlap).1 = pyJoin SEP ["hello", "world"] := by
  have h := (claim_C5 xpOverlap).2.2.2 (by decide)
  have hl : (collectSels xpOverlap [] [] OUTPUT_CANDIDATES).1 = ["hello", "world"] := by decide
  rw [hl] at h
  exact ⟨hl, h⟩

/-- C6: for every request whose `text` field is missing or empty, the
endpoint returns the input-error response; that response carries no
diagnostic log entries, and the result is identical under every browser
environment — no browser work influences it. -/
theorem claim_C6 (env env2 : Env) (payload : Option String)
    (h : payload.getD "" = "") :
    validate env payload = [("error", JVal.s "No text provided")] ∧
    debugOf (validate env payload) = [] ∧
    validate env payload = validate env2 payload := by
  have hv : ∀ e : Env, validate e payload = [("error", JVal.s "No text provided")] := by
    intro e
    unfold validate
    rw [h]
    rfl
  refine ⟨hv env, ?_, ?_⟩
  · rw [hv env]
    rfl
  · rw [hv env, hv env2]

/-- C6 witness: a request with no `text` field gets the input-error
response with an empty log, identically under a working environment and
an environment whose navigation would fail. -/
theorem claim_C6_witness :
    validate envHappy none = [("error", JVal.s "No text provided")] ∧
    debugOf (validate envHappy none) = [] ∧
    validate envHappy none = validate envNavFail none :=
  claim_C6 envHappy envNavFail none rfl

/-- C7 counterexample: on a page where the first strategy (`textarea`)
resolves to an existing element but its fill call raises, the loop does
not stop there: it continues and writes the text through the second
strategy, so the element written is not the first resolving strategy's
element and iteration went past it — refuting the claim that the loop
writes into the first resolving strategy's element and stops there. -/
theorem claim_C7_counterexample :
    pgFirstFillRaises.query "textarea" = true ∧
    (tryFillApp pgFirstFillRaises "hi").fills =
      [("div[data-testid=\x27stTextArea\x27] textarea", "hi")] ∧
    (tryFillApp pgFirstFillRaises "hi").tried ≠ ["textarea"] := by
  decide

/-- C7 (amended): the fill loop iterates the strategies in their fixed
order; a strategy that resolves but whose write raises is logged and
iteration proceeds; for the first strategy that resolves and whose
write succeeds, the caller's text is written into exactly that element
and iteration stops.  At most one element is ever filled, `filled` is
true exactly when some strategy resolved with a successful write, and
the succeeding selector is recorded in the log (when none succeeded,
`run_proxy` separately logs `filled=False`). -/
theorem claim_C7_amended (pg : Page) (text : String) :
    (tryFillApp pg text).fills.length ≤ 1 ∧
    (tryFillApp pg text).filled = TEXTAREA_CANDIDATES.any (fillHit pg) ∧
    (∀ sel, TEXTAREA_CANDIDATES.find? (fillHit pg) = some sel →
      (tryFillApp pg text).fills = [(sel, text)] ∧
      (tryFillApp pg text).tried =
        TEXTAREA_CANDIDATES.takeWhile (fun s => !(fillHit pg s)) ++ [sel] ∧
      ("filled using selector: " ++ sel) ∈ (tryFillApp pg text).log) ∧
    (TEXTAREA_CANDIDATES.find? (fillHit pg) = none →
      (tryFillApp pg text).fills = [] ∧
      (tryFillApp pg text).tried = TEXTAREA_CANDIDATES) := by
  refine ⟨fillGo_fills_len pg text TEXTAREA_CANDIDATES,
    fillGo_filled_eq_any pg text TEXTAREA_CANDIDATES, ?_, ?_⟩
  · intro sel hfind
    have h := fillGo_spec pg text TEXTAREA_CANDIDATES
    rw [hfind] at h
    exact h
  · intro hfind
    have h := fillGo_spec pg text TEXTAREA_CANDIDATES
    rw [hfind] at h
    exact h

/-- C7 witness: on the end-to-end fixture page the first strategy
resolves, is filled with the caller's text, and iteration stops after
that single strategy. -/
theorem claim_C7_witness :
    (tryFillApp pgHappy "hello").fills = [("textarea", "hello")] ∧
    (tryFillApp pgHappy "hello").tried = ["textarea"] ∧
    "filled using selector: textarea" ∈ (tryFillApp pgHappy "hello").log := by
  have h := (claim_C7_amended pgHappy "hello").2.2.1 "textarea" (by decide)
  refine ⟨h.1, ?_, ?_⟩
  · rw [h.2.1]
    decide
  · have he : ("filled using selector: " ++ "textarea") = "filled using selector: textarea" := by
      decide
    rw [he] at h
    exact h.2.2

/-- C8: whenever one extraction pass collects zero fragments across all
output selectors (and the body text is readable), the harvested result
is exactly the page's visible body text truncated to 120000 characters,
returned as the single fragment of the pass. -/
theorem claim_C8 (pg : XPage) (b : String)
    (hb : pg.body = Except.ok b)
    (hz : (collectSels pg [] [] OUTPUT_CANDIDATES).1 = []) :
    (finalFrags pg).1 = [pySlice b 120000] ∧
    (extract_output pg).1 = pySlice b 120000 := by
  have hff : (finalFrags pg).1 = [pySlice b 120000] := by
    unfold finalFrags
    simp [hz, hb]
  refine ⟨hff, ?_⟩
  unfold extract_output
  rw [hff]
  rfl

/-- C8 witness: on the page with no matching output container, the
result is the body text (shorter than the truncation bound, hence
unchanged) as a single fragment. -/
theorem claim_C8_witness :
    (finalFrags xpNoOutput).1 = [pySlice "This is the whole visible body text" 120000] ∧
    (extract_output xpNoOutput).1 = pySlice "This is the whole visible body text" 120000 :=
  claim_C8 xpNoOutput "This is the whole visible body text" rfl (by decide)

theorem isPrefixOf_slash_of_dslash (l : List Char) (h : ("//".data).isPrefixOf l = true) :
    ("/".data).isPrefixOf l = true := by
  cases l with
  | nil => simp [List.isPrefixOf] at h
  | cons c t =>
    simp only [List.isPrefixOf, Bool.and_eq_true, beq_iff_eq] at h ⊢
    exact ⟨h.1, trivial⟩

theorem isPrefixOf_http_not_slash (l : List Char) (h : ("http".data).isPrefixOf l = true) :
    ("/".data).isPrefixOf l = false := by
  cases l with
  | nil => simp [List.isPrefixOf] at h
  | cons c t =>
    simp only [List.isPrefixOf, Bool.and_eq_true, beq_iff_eq] at h
    simp only [List.isPrefixOf, Bool.and_true]
    rw [← h.1]
    decide

theorem pyStartsWith_slash_of_dslash (s : String) (h : pyStartsWith s "//" = true) :
    pyStartsWith s "/" = true :=
  isPrefixOf_slash_of_dslash s.data h

theorem pyStartsWith_http_not_slash (s : String) (h : pyStartsWith s "http" = true) :
    pyStartsWith s "/" = false :=
  isPrefixOf_http_not_slash s.data h

/-- C9: for every non-empty iframe source attribute, the normalisation
of lines 57-65 (applied, as in the source, to the
whitespace-stripped value `s`) yields: `https:` prepended when `s` is
protocol-relative; the root URL (which carries no trailing slash, so
`rstrip` leaves it unchanged) with `s` appended when `s` is
root-relative; the root URL, a slash, and `s` when `s` is a bare path
not starting with `http`; and `s` unchanged otherwise (when it starts
with `http`). -/
theorem claim_C9 (src : String) (h : src ≠ "") :
    (pyStartsWith (pyStrip src) "//" = true →
      normalize_src src = "https:" ++ pyStrip src) ∧
    (pyStartsWith (pyStrip src) "//" = false → pyStartsWith (pyStrip src) "/" = true →
      normalize_src src = ROOT_URL ++ pyStrip src) ∧
    (pyStartsWith (pyStrip src) "/" = false → pyStartsWith (pyStrip src) "http" = false →
      normalize_src src = ROOT_URL ++ "/" ++ pyStrip src) ∧
    (pyStartsWith (pyStrip src) "http" = true → normalize_src src = pyStrip src) := by
  have hr : pyRstripSlash ROOT_URL = ROOT_URL := by decide
  refine ⟨?_, ?_, ?_, ?_⟩
  · intro h1
    unfold normalize_src
    simp [h1]
  · intro h1 h2
    unfold normalize_src
    simp [h1, h2, hr]
  · intro h1 h2
    have hdd : pyStartsWith (pyStrip src) "//" = false := by
      cases hd : pyStartsWith (pyStrip src) "//" with
      | false => rfl
      | true =>
        have h' := pyStartsWith_slash_of_dslash (pyStrip src) hd
        exact absurd (h'.symm.trans h1) (by decide)
    unfold normalize_src
    simp [hdd, h1, h2, hr]
  · intro h1
    have h2 : pyStartsWith (pyStrip src) "/" = false :=
      pyStartsWith_http_not_slash (pyStrip src) h1
    have hdd : pyStartsWith (pyStrip src) "//" = false := by
      cases hd : pyStartsWith (pyStrip src) "//" with
      | false => rfl
      | true =>
        have h' := pyStartsWith_slash_of_dslash (pyStrip src) hd
        exact absurd (h'.symm.trans h2) (by decide)
    unfold normalize_src
    simp [hdd, h2, h1]

/-- C9 witness: a protocol-relative iframe source (here with the
surrounding whitespace the source strips) resolves by prefixing
`https:`. -/
theorem claim_C9_witness :
    normalize_src " //cdn.test/app " = "https://cdn.test/app" := by
  have h := (claim_C9 " //cdn.test/app " (by decide)).1 (by decide)
  rw [h]
  decide

/-- C10: the button-click loop runs regardless of fill outcomes, and
because the final strategy is the unconditional selector `button`,
`clicked` is true whenever a `button` element exists on the working
page and clicking it does not raise — for any two pages agreeing on
selector resolution and click outcomes (their fill behaviour and the
caller's text may differ arbitrarily, and `filled` may be false). -/
theorem claim_C10 (pg pg2 : Page) (text text2 : String)
    (hq : ∀ s, pg2.query s = pg.query s)
    (hc : ∀ s, pg2.clickExn s = pg.clickExn s)
    (hb : pg.query "button" = true)
    (hok : pg.clickExn "button" = none) :
    (fill_and_click_app pg text).1.2 = true ∧
    (fill_and_click_app pg2 text2).1.2 = true := by
  have hmem : "button" ∈ BUTTON_CANDIDATES := by decide
  have h1 : clickHit pg "button" = true := by
    unfold clickHit
    rw [hb, hok]
    rfl
  have h2 : clickHit pg2 "button" = true := by
    unfold clickHit
    rw [hq, hc, hb, hok]
    rfl
  constructor
  · show (tryClickApp pg).clicked = true
    unfold tryClickApp
    rw [clickGo_clicked_eq_any]
    exact List.any_eq_true.mpr ⟨"button", hmem, h1⟩
  · show (tryClickApp pg2).clicked = true
    unfold tryClickApp
    rw [clickGo_clicked_eq_any]
    exact List.any_eq_true.mpr ⟨"button", hmem, h2⟩

/-- C10 witness: on a page with a button but no recognised input
element, `filled` is false while `clicked` is true. -/
theorem claim_C10_witness :
    (fill_and_click_app pgBtnOnly "x").1.1 = false ∧
    (fill_and_click_app pgBtnOnly "x").1.2 = true :=
  ⟨by decide,
   (claim_C10 pgBtnOnly pgBtnOnly "x" "x" (fun _ => rfl) (fun _ => rfl)
     (by decide) (by decide)).1⟩
